import Mathlib

/-!
Shallow embedding of the pyairbnb scraping scripts: the listing-record
flattener `process_listing_data` (src/converter.py, src/get_listings.py),
the geographic grid partitioner (src/scrape_airbnb.py, src/get_listings.py)
and the room-id keyed de-duplication dictionary.

Python floats are idealised as exact rationals (`ℚ`); Python's dynamic
values are embedded as the JSON-like type `JValue`, and operations that can
raise at run time return `Except PyErr`.
-/

/-- A Python run-time error class, as raised by the operations the scripts use. -/
inductive PyErr where
  | attributeError
  | indexError
  | keyError
  | typeError
  | zeroDivisionError
deriving DecidableEq, Repr

/-- A JSON-like dynamic value: the shape of the listing records the scripts
manipulate (scalars, ordered sequences, string-keyed mappings). -/
inductive JValue where
  | null
  | bool (b : Bool)
  | num (q : ℚ)
  | str (s : String)
  | arr (xs : List JValue)
  | obj (kvs : List (String × JValue))
deriving Repr

mutual

/-- Structural decidable equality on dynamic values (Python `==` on
JSON-shaped data). -/
def JValue.decEq : (a b : JValue) → Decidable (a = b)
  | .null, .null => .isTrue rfl
  | .bool a, .bool b =>
      if h : a = b then .isTrue (by rw [h])
      else .isFalse fun hh => h (JValue.bool.inj hh)
  | .num a, .num b =>
      if h : a = b then .isTrue (by rw [h])
      else .isFalse fun hh => h (JValue.num.inj hh)
  | .str a, .str b =>
      if h : a = b then .isTrue (by rw [h])
      else .isFalse fun hh => h (JValue.str.inj hh)
  | .arr xs, .arr ys =>
      match JValue.decEqList xs ys with
      | .isTrue h => .isTrue (by rw [h])
      | .isFalse h => .isFalse fun hh => h (JValue.arr.inj hh)
  | .obj xs, .obj ys =>
      match JValue.decEqObj xs ys with
      | .isTrue h => .isTrue (by rw [h])
      | .isFalse h => .isFalse fun hh => h (JValue.obj.inj hh)
  | .null, .bool _ => .isFalse fun h => JValue.noConfusion h
  | .null, .num _ => .isFalse fun h => JValue.noConfusion h
  | .null, .str _ => .isFalse fun h => JValue.noConfusion h
  | .null, .arr _ => .isFalse fun h => JValue.noConfusion h
  | .null, .obj _ => .isFalse fun h => JValue.noConfusion h
  | .bool _, .null => .isFalse fun h => JValue.noConfusion h
  | .bool _, .num _ => .isFalse fun h => JValue.noConfusion h
  | .bool _, .str _ => .isFalse fun h => JValue.noConfusion h
  | .bool _, .arr _ => .isFalse fun h => JValue.noConfusion h
  | .bool _, .obj _ => .isFalse fun h => JValue.noConfusion h
  | .num _, .null => .isFalse fun h => JValue.noConfusion h
  | .num _, .bool _ => .isFalse fun h => JValue.noConfusion h
  | .num _, .str _ => .isFalse fun h => JValue.noConfusion h
  | .num _, .arr _ => .isFalse fun h => JValue.noConfusion h
  | .num _, .obj _ => .isFalse fun h => JValue.noConfusion h
  | .str _, .null => .isFalse fun h => JValue.noConfusion h
  | .str _, .bool _ => .isFalse fun h => JValue.noConfusion h
  | .str _, .num _ => .isFalse fun h => JValue.noConfusion h
  | .str _, .arr _ => .isFalse fun h => JValue.noConfusion h
  | .str _, .obj _ => .isFalse fun h => JValue.noConfusion h
  | .arr _, .null => .isFalse fun h => JValue.noConfusion h
  | .arr _, .bool _ => .isFalse fun h => JValue.noConfusion h
  | .arr _, .num _ => .isFalse fun h => JValue.noConfusion h
  | .arr _, .str _ => .isFalse fun h => JValue.noConfusion h
  | .arr _, .obj _ => .isFalse fun h => JValue.noConfusion h
  | .obj _, .null => .isFalse fun h => JValue.noConfusion h
  | .obj _, .bool _ => .isFalse fun h => JValue.noConfusion h
  | .obj _, .num _ => .isFalse fun h => JValue.noConfusion h
  | .obj _, .str _ => .isFalse fun h => JValue.noConfusion h
  | .obj _, .arr _ => .isFalse fun h => JValue.noConfusion h

/-- Decidable equality on sequences of dynamic values. -/
def JValue.decEqList : (xs ys : List JValue) → Decidable (xs = ys)
  | [], [] => .isTrue rfl
  | [], _ :: _ => .isFalse fun h => List.noConfusion h
  | _ :: _, [] => .isFalse fun h => List.noConfusion h
  | x :: xs, y :: ys =>
      match JValue.decEq x y, JValue.decEqList xs ys with
      | .isTrue h1, .isTrue h2 => .isTrue (by rw [h1, h2])
      | .isFalse h1, _ => .isFalse fun hh => h1 (List.cons.inj hh).1
      | _, .isFalse h2 => .isFalse fun hh => h2 (List.cons.inj hh).2

/-- Decidable equality on key-value entry lists of mappings. -/
def JValue.decEqObj : (xs ys : List (String × JValue)) → Decidable (xs = ys)
  | [], [] => .isTrue rfl
  | [], _ :: _ => .isFalse fun h => List.noConfusion h
  | _ :: _, [] => .isFalse fun h => List.noConfusion h
  | (k, v) :: xs, (l, w) :: ys =>
      if h1 : k = l then
        match JValue.decEq v w, JValue.decEqObj xs ys with
        | .isTrue h2, .isTrue h3 => .isTrue (by rw [h1, h2, h3])
        | .isFalse h2, _ =>
            .isFalse fun hh => h2 (congrArg Prod.snd (List.cons.inj hh).1)
        | _, .isFalse h3 => .isFalse fun hh => h3 (List.cons.inj hh).2
      else .isFalse fun hh => h1 (congrArg Prod.fst (List.cons.inj hh).1)

end

instance : DecidableEq JValue := JValue.decEq

namespace JValue

/-- First-match lookup in the association list backing a mapping
(the scripts' dicts have no duplicate keys). -/
def lookupKV : List (String × JValue) → String → Option JValue
  | [], _ => none
  | (k, v) :: rest, key => if k = key then some v else lookupKV rest key

/-- Python `d.get(key, default)`: a mapping returns the stored value or the
default; calling `.get` on any non-mapping raises AttributeError. -/
def pyGet (v : JValue) (key : String) (default : JValue) : Except PyErr JValue :=
  match v with
  | .obj kvs => .ok ((lookupKV kvs key).getD default)
  | _ => .error .attributeError

/-- Python truthiness: `None`, `False`, zero, and empty strings, sequences and
mappings are falsy; everything else is truthy. -/
def pyTruthy : JValue → Bool
  | .null => false
  | .bool b => b
  | .num q => decide (q ≠ 0)
  | .str s => decide (s ≠ "")
  | .arr xs => !xs.isEmpty
  | .obj kvs => !kvs.isEmpty

/-- Python `str()` as used by the scripts' f-strings. `None`, booleans,
integers and strings are rendered exactly; non-integer numbers (floats) and
composite values, which no script ever formats, are rendered abstractly. -/
def pyStr : JValue → String
  | .null => "None"
  | .bool true => "True"
  | .bool false => "False"
  | .num q => if q.den = 1 then toString q.num else toString q
  | .str s => s
  | .arr _ => "<sequence>"
  | .obj _ => "<mapping>"

/-- Whether the string `t` occurs as a contiguous substring of `s`
(assuming `t` nonempty, which holds at every use site). -/
def strContainsSub (s t : String) : Bool := (s.splitOn t).length ≥ 2

/-- Python `needle in container`: membership for sequences, key membership for
mappings, substring test for strings; TypeError on non-containers (and on
testing a non-string inside a string). -/
def pyMem (needle : JValue) (container : JValue) : Except PyErr Bool :=
  match container with
  | .arr xs => .ok (xs.any fun x => x = needle)
  | .obj kvs => .ok (match needle with
      | .str s => (lookupKV kvs s).isSome
      | _ => false)
  | .str hay => match needle with
      | .str n => .ok (strContainsSub hay n || n = "")
      | _ => .error .typeError
  | _ => .error .typeError

/-- Python iteration over a value: sequences yield their elements, strings
their one-character strings, mappings their keys; scalars raise TypeError. -/
def pyIterList : JValue → Except PyErr (List JValue)
  | .arr xs => .ok xs
  | .str s => .ok (s.data.map fun c => .str (String.mk [c]))
  | .obj kvs => .ok (kvs.map fun kv => .str kv.1)
  | _ => .error .typeError

/-- Checks that every element is a Python string, returning the underlying
strings (the element-type check performed by `str.join`). -/
def pyStrList : List JValue → Except PyErr (List String)
  | [] => .ok []
  | .str s :: rest => do
      let r ← pyStrList rest
      .ok (s :: r)
  | _ :: _ => .error .typeError

/-- Python `sep.join(items)`: concatenation with separator; TypeError when an
item is not a string. -/
def pyJoin (sep : String) (items : List JValue) : Except PyErr String := do
  let parts ← pyStrList items
  .ok (String.intercalate sep parts)

/-- Python subscript `v[0]`: first element of a sequence (IndexError when
empty), first character of a string, KeyError on a string-keyed mapping
(the integer key 0 is never present), TypeError on scalars. -/
def pyIndexZero : JValue → Except PyErr JValue
  | .arr [] => .error .indexError
  | .arr (x :: _) => .ok x
  | .str s => match s.data with
      | [] => .error .indexError
      | c :: _ => .ok (.str (String.mk [c]))
  | .obj _ => .error .keyError
  | _ => .error .typeError

/-- Python subscript `v[key]` with a string key: mapping lookup raising
KeyError when the key is absent; TypeError on every non-mapping. -/
def pySubscript (v : JValue) (key : String) : Except PyErr JValue :=
  match v with
  | .obj kvs => match lookupKV kvs key with
      | some w => .ok w
      | none => .error .keyError
  | _ => .error .typeError

end JValue

open JValue

/-- The fixed column set of one flattened listing row, mirroring the dict
literal returned by `process_listing_data` (src/converter.py lines 33-51). -/
structure FlatRow where
  room_id : JValue
  listing_url : String
  category : JValue
  name : JValue
  title : JValue
  rating_value : JValue
  rating_review_count : JValue
  is_superhost : Bool
  is_guest_favorite : Bool
  latitude : JValue
  longitude : JValue
  price_unit_qualifier : JValue
  price_unit_currency_symbol : JValue
  price_unit_original_amount : JValue
  price_unit_discounted_amount : JValue
  price_breakdown_summary : String
  first_image_url : JValue
deriving DecidableEq, Repr

/-- The per-entry step of the breakdown list comprehension
`[item.get('description', '') for item in price_info.get('break_down', [])]`. -/
def mapDescr : List JValue → Except PyErr (List JValue)
  | [] => .ok []
  | it :: rest => do
      let d ← pyGet it "description" (.str "")
      let r ← mapDescr rest
      .ok (d :: r)

/-- The breakdown-summary statements of `process_listing_data`
(src/converter.py lines 28-31): `price_breakdown_desc` starts as the empty
string and, when `price_info.get('break_down')` is truthy, becomes the
`" | "`-join of the entries' `description` fields (default `''`). -/
def breakdownSummary (price_info : JValue) : Except PyErr String := do
  let bdTest ← pyGet price_info "break_down" .null
  if pyTruthy bdTest then do
    let bd ← pyGet price_info "break_down" (.arr [])
    let items ← pyIterList bd
    let descs ← mapDescr items
    pyJoin " | " descs
  else pure ""

/-- Embedding of `process_listing_data` (src/converter.py lines 5-51 and the
identical copy in src/get_listings.py lines 23-66): flattens one listing's
JSON object into the fixed column set, with Python's run-time errors made
explicit in the `Except` monad, in source evaluation order. -/
def process_listing_data (listing : JValue) : Except PyErr FlatRow := do
  let price_info ← pyGet listing "price" (.obj [])
  let price_unit ← pyGet price_info "unit" (.obj [])
  let rating_info ← pyGet listing "rating" (.obj [])
  let room_id ← pyGet listing "room_id" .null
  let listing_url :=
    if pyTruthy room_id then "https://www.airbnb.com/rooms/" ++ pyStr room_id
    else "N/A"
  let price_breakdown_desc ← breakdownSummary price_info
  let category ← pyGet listing "category" .null
  let nameV ← pyGet listing "name" .null
  let title ← pyGet listing "title" .null
  let rating_value ← pyGet rating_info "value" .null
  let rating_review_count ← pyGet rating_info "reviewCount" .null
  let badges1 ← pyGet listing "badges" (.arr [])
  let is_superhost ← pyMem (.str "SUPERHOST") badges1
  let badges2 ← pyGet listing "badges" (.arr [])
  let is_guest_favorite ← pyMem (.str "GUEST_FAVORITE") badges2
  let coords1 ← pyGet listing "coordinates" (.obj [])
  let latitude ← pyGet coords1 "latitude" .null
  let coords2 ← pyGet listing "coordinates" (.obj [])
  let longitude ← pyGet coords2 "longitude" .null
  let price_unit_qualifier ← pyGet price_unit "qualifier" .null
  let price_unit_currency_symbol ← pyGet price_unit "curency_symbol" .null
  let price_unit_original_amount ← pyGet price_unit "amount" .null
  let price_unit_discounted_amount ← pyGet price_unit "discount" .null
  let imgs ← pyGet listing "images" (.arr [.obj []])
  let firstImg ← pyIndexZero imgs
  let first_image_url ← pyGet firstImg "url" .null
  .ok {
    room_id := room_id
    listing_url := listing_url
    category := category
    name := nameV
    title := title
    rating_value := rating_value
    rating_review_count := rating_review_count
    is_superhost := is_superhost
    is_guest_favorite := is_guest_favorite
    latitude := latitude
    longitude := longitude
    price_unit_qualifier := price_unit_qualifier
    price_unit_currency_symbol := price_unit_currency_symbol
    price_unit_original_amount := price_unit_original_amount
    price_unit_discounted_amount := price_unit_discounted_amount
    price_breakdown_summary := price_breakdown_desc
    first_image_url := first_image_url }

/-- Holds when a breakdown entry is a mapping whose `description`, when
present, is a string; exactly the entries the breakdown join accepts. -/
def goodEntry : JValue → Bool
  | .obj kvs => match lookupKV kvs "description" with
      | some (.str _) => true
      | some _ => false
      | none => true
  | _ => false

/-- The string the breakdown join contributes for one entry:
`item.get('description', '')` (meaningful on entries satisfying `goodEntry`). -/
def entryDescr : JValue → String
  | .obj kvs => match lookupKV kvs "description" with
      | some (.str s) => s
      | some _ => ""
      | none => ""
  | _ => ""

/-- Holds when every field the flattener touches has, when present, the shape
the code dereferences: `price`, `rating`, `coordinates` and `price.unit` are
mappings, `badges` is a sequence, `price.break_down` is a sequence of
`goodEntry` entries, and `images` is a sequence of mappings that is non-empty
when present. -/
def wellShaped (kvs : List (String × JValue)) : Bool :=
  (match lookupKV kvs "price" with
   | none => true
   | some (.obj p) =>
       (match lookupKV p "unit" with
        | none => true
        | some (.obj _) => true
        | some _ => false) &&
       (match lookupKV p "break_down" with
        | none => true
        | some (.arr xs) => xs.all goodEntry
        | some _ => false)
   | some _ => false) &&
  (match lookupKV kvs "rating" with
   | none => true
   | some (.obj _) => true
   | some _ => false) &&
  (match lookupKV kvs "coordinates" with
   | none => true
   | some (.obj _) => true
   | some _ => false) &&
  (match lookupKV kvs "badges" with
   | none => true
   | some (.arr _) => true
   | some _ => false) &&
  (match lookupKV kvs "images" with
   | none => true
   | some (.arr (.obj _ :: _)) => true
   | some _ => false)

/-- The record's identifier value as the flattener reads it:
`listing.get('room_id')`, defaulting to `None`. -/
def roomIdVal (kvs : List (String × JValue)) : JValue :=
  (lookupKV kvs "room_id").getD .null

/-- The record's price-breakdown value as the flattener reads it:
`listing.get('price', {}).get('break_down')`, with `None` when the chain is
absent (meaningful on records whose `price`, when present, is a mapping). -/
def breakDownVal (kvs : List (String × JValue)) : JValue :=
  match (lookupKV kvs "price").getD (.obj []) with
  | .obj p => (lookupKV p "break_down").getD .null
  | _ => .null

/-- One geographic cell: the dict
`{"sw_lat": .., "sw_long": .., "ne_lat": .., "ne_long": .., "name": ..}`
built by the bounding-box generation loops, with coordinates idealised as
exact rationals. -/
structure Box where
  sw_lat : ℚ
  sw_long : ℚ
  ne_lat : ℚ
  ne_long : ℚ
  name : String
deriving DecidableEq, Repr

/-- Geographic area of a box in square degrees. -/
def boxArea (b : Box) : ℚ := (b.ne_lat - b.sw_lat) * (b.ne_long - b.sw_long)

/-- Cell (i, j) of the grid: the box built by the non-subdivided branch of the
generation loop (src/scrape_airbnb.py lines 42-48, src/get_listings.py lines
104-112 and 128-132), generalized from `grid_size` to independent row and
column counts per the partition contract. -/
def gridCell (swLat swLong neLat neLong : ℚ) (rows cols : ℤ) (i j : ℕ) :
    Box :=
  let latStep := (neLat - swLat) / (rows : ℚ)
  let longStep := (neLong - swLong) / (cols : ℚ)
  { sw_lat := swLat + (i : ℚ) * latStep
    sw_long := swLong + (j : ℚ) * longStep
    ne_lat := swLat + ((i : ℚ) + 1) * latStep
    ne_long := swLong + ((j : ℚ) + 1) * longStep
    name := "Area_" ++ toString (i + 1) ++ "_" ++ toString (j + 1) }

/-- The row-major list of grid cells produced by the two nested `range` loops
(Python `range` of a non-positive bound is empty). -/
def gridCells (swLat swLong neLat neLong : ℚ) (rows cols : ℤ) : List Box :=
  (List.range rows.toNat).flatMap fun (i : ℕ) =>
    (List.range cols.toNat).map fun (j : ℕ) =>
      gridCell swLat swLong neLat neLong rows cols i j

/-- The partition operation of the scripts, generalized over the box and the
subdivision factors: the steps are computed by Python float division, which
raises ZeroDivisionError when a factor is zero (src/get_listings.py lines
105-106), and the loops then emit the row-major cells. No other validation is
performed. -/
def partition (swLat swLong neLat neLong : ℚ) (rows cols : ℤ) :
    Except PyErr (List Box) :=
  if rows = 0 ∨ cols = 0 then .error .zeroDivisionError
  else .ok (gridCells swLat swLong neLat neLong rows cols)

/-- The bounding-box list actually built by the scripts
(src/scrape_airbnb.py lines 14-48, src/get_listings.py lines 103-132): the
4x4 grid over the Istanbul box, except that cell (i=3, j=1) — Area_4_2 — is
replaced by its own hard-coded 2x2 subdivision. -/
def bounding_boxes : List Box :=
  let sw_long_orig : ℚ := 28.97
  let sw_lat_orig : ℚ := 41.03
  let ne_long_orig : ℚ := 28.98
  let ne_lat_orig : ℚ := 41.04
  let grid_size : ℕ := 4
  let lat_step := (ne_lat_orig - sw_lat_orig) / (grid_size : ℚ)
  let long_step := (ne_long_orig - sw_long_orig) / (grid_size : ℚ)
  (List.range grid_size).flatMap fun (i : ℕ) =>
    (List.range grid_size).flatMap fun (j : ℕ) =>
      let swLat := sw_lat_orig + (i : ℚ) * lat_step
      let swLong := sw_long_orig + (j : ℚ) * long_step
      let neLat := sw_lat_orig + ((i : ℚ) + 1) * lat_step
      let neLong := sw_long_orig + ((j : ℚ) + 1) * long_step
      if i = 3 ∧ j = 1 then
        let sub_grid_size : ℕ := 2
        let sub_lat_step := (neLat - swLat) / (sub_grid_size : ℚ)
        let sub_long_step := (neLong - swLong) / (sub_grid_size : ℚ)
        (List.range sub_grid_size).flatMap fun (si : ℕ) =>
          (List.range sub_grid_size).map fun (sj : ℕ) =>
            { sw_lat := swLat + (si : ℚ) * sub_lat_step
              sw_long := swLong + (sj : ℚ) * sub_long_step
              ne_lat := swLat + ((si : ℚ) + 1) * sub_lat_step
              ne_long := swLong + ((sj : ℚ) + 1) * sub_long_step
              name := "Area_" ++ toString (i + 1) ++ "_" ++ toString (j + 1)
                ++ "_Sub_" ++ toString (si + 1) ++ "_" ++ toString (sj + 1) }
      else
        [{ sw_lat := swLat, sw_long := swLong, ne_lat := neLat,
           ne_long := neLong,
           name := "Area_" ++ toString (i + 1) ++ "_" ++ toString (j + 1) }]

/-- Overlap of the interiors of two boxes: some point lies strictly inside
both. -/
def boxOverlap (u v : Box) : Prop :=
  ∃ la lo : ℚ,
    u.sw_lat < la ∧ la < u.ne_lat ∧ u.sw_long < lo ∧ lo < u.ne_long ∧
    v.sw_lat < la ∧ la < v.ne_lat ∧ v.sw_long < lo ∧ lo < v.ne_long

/-- Insertion into the Python dict backing `all_listings`, modelled as an
ordered association list: `d[k] = v` replaces the value under an existing
key in place, else appends the new pair. -/
def dictInsert (d : List (JValue × JValue)) (k v : JValue) :
    List (JValue × JValue) :=
  match d with
  | [] => [(k, v)]
  | (k', v') :: rest =>
      if k' = k then (k, v) :: rest else (k', v') :: dictInsert rest k v

/-- Lookup in the Python dict backing `all_listings`. -/
def dictLookup (d : List (JValue × JValue)) (k : JValue) : Option JValue :=
  match d with
  | [] => none
  | (k', v') :: rest => if k' = k then some v' else dictLookup rest k

/-- Embedding of the de-duplication loop
`for listing in search_results: all_listings[listing['room_id']] = listing`
(src/scrape_airbnb.py lines 77-78, src/get_listings.py lines 146-147):
each record is inserted under its `room_id`, and a record without that key
raises KeyError. -/
def all_listings_merge (results : List JValue)
    (d : List (JValue × JValue)) : Except PyErr (List (JValue × JValue)) :=
  match results with
  | [] => .ok d
  | l :: rest => do
      let key ← pySubscript l "room_id"
      all_listings_merge rest (dictInsert d key l)

/-- Embedding of the URL list comprehension over the de-duplicated values
(src/scrape_airbnb.py line 90, src/get_listings.py line 170):
each stored record's `room_id` is read by subscript and formatted into the
listing URL. -/
def listingUrls : List JValue → Except PyErr (List String)
  | [] => .ok []
  | l :: rest => do
      let rid ← pySubscript l "room_id"
      let urls ← listingUrls rest
      .ok (("https://www.airbnb.com/rooms/" ++ pyStr rid) :: urls)

/-- Holds when every stored pair of the de-duplication dict maps a key to a
record that is a mapping whose `room_id` field equals that key. -/
def keyedById (d : List (JValue × JValue)) : Bool :=
  d.all fun p =>
    match p.2 with
    | .obj kvs => lookupKV kvs "room_id" == some p.1
    | _ => false

/-- Whether a dynamic value is a mapping. -/
def isObj : JValue → Bool
  | .obj _ => true
  | _ => false

/-- Sample record for the last-write-wins scenario: identifier 1, first
version of the fields. -/
def sampleRec1 : JValue :=
  .obj [("room_id", .num 1), ("title", .str "first")]

/-- Sample record for the last-write-wins scenario: identifier 2. -/
def sampleRec2 : JValue :=
  .obj [("room_id", .num 2), ("title", .str "other")]

/-- Sample record for the last-write-wins scenario: identifier 1 again, with
field values different from the first version. -/
def sampleRec3 : JValue :=
  .obj [("room_id", .num 1), ("title", .str "third")]

/-- Sample well-shaped listing record exercising every column of the
flattener. -/
def wellShapedSample : List (String × JValue) :=
  [("room_id", .num 123),
   ("name", .str "Cozy flat"),
   ("price", .obj [("unit", .obj [("qualifier", .str "night"),
        ("curency_symbol", .str "$"), ("amount", .num 100),
        ("discount", .num 90)]),
      ("break_down", .arr [.obj [("description", .str "Base fare")],
        .obj [("description", .str "Cleaning fee")]])]),
   ("rating", .obj [("value", .num (47/10)), ("reviewCount", .num 12)]),
   ("coordinates", .obj [("latitude", .num 41), ("longitude", .num 29)]),
   ("badges", .arr [.str "SUPERHOST"]),
   ("images", .arr [.obj [("url", .str "https://img.example/1.jpg")]])]

/-- Sample record whose identifier is present and truthy. -/
def c7Sample : List (String × JValue) := [("room_id", .num 123)]

/-- The flattened row of `c7Sample`. -/
def c7SampleRow : FlatRow :=
  { room_id := .num 123,
    listing_url := "https://www.airbnb.com/rooms/123",
    category := .null, name := .null, title := .null,
    rating_value := .null, rating_review_count := .null,
    is_superhost := false, is_guest_favorite := false,
    latitude := .null, longitude := .null,
    price_unit_qualifier := .null, price_unit_currency_symbol := .null,
    price_unit_original_amount := .null,
    price_unit_discounted_amount := .null,
    price_breakdown_summary := "", first_image_url := .null }

/-- Sample price-breakdown entries, one of them without a description. -/
def c8Entries : List JValue :=
  [.obj [("description", .str "Base fare")],
   .obj [("description", .str "Cleaning fee")], .obj []]

/-- Sample record carrying the breakdown entries of `c8Entries`. -/
def c8Sample : List (String × JValue) :=
  [("price", .obj [("break_down", .arr c8Entries)])]

/-- The flattened row of `c8Sample`. -/
def c8SampleRow : FlatRow :=
  { room_id := .null, listing_url := "N/A",
    category := .null, name := .null, title := .null,
    rating_value := .null, rating_review_count := .null,
    is_superhost := false, is_guest_favorite := false,
    latitude := .null, longitude := .null,
    price_unit_qualifier := .null, price_unit_currency_symbol := .null,
    price_unit_original_amount := .null,
    price_unit_discounted_amount := .null,
    price_breakdown_summary := "Base fare | Cleaning fee | ",
    first_image_url := .null }

section ClaimTheorems

/-- Simp helper: bind on a successful `Except` computation steps to the
continuation. -/
@[simp] theorem pyOkBind {α β : Type} (a : α) (f : α → Except PyErr β) :
    (Except.ok a >>= f) = f a := rfl

/-- Simp helper: bind on a failed `Except` computation propagates the error. -/
@[simp] theorem pyErrorBind {α β : Type} (e : PyErr)
    (f : α → Except PyErr β) :
    ((Except.error e : Except PyErr α) >>= f) = Except.error e := rfl

/-- Inversion for a successful `Except` bind. -/
theorem pyBindOk {α β : Type} {x : Except PyErr α} {f : α → Except PyErr β}
    {b : β} (h : (x >>= f) = .ok b) : ∃ a, x = .ok a ∧ f a = .ok b := by
  cases x with
  | ok a => exact ⟨a, rfl, h⟩
  | error e => simp at h

/-- C2: evaluations of the flattener around the first-image column. A record
whose image sequence is present but empty makes `process_listing_data` raise
IndexError (the subscript `[0]` on the empty list), although the claim and
the code's safe-default idiom intend the absent marker there; a missing image
sequence and a non-empty one behave as the claim states. -/
theorem first_image_url_eval :
    process_listing_data (.obj [("images", .arr [])]) = .error .indexError
    ∧ (process_listing_data (.obj [])).map (fun r => r.first_image_url) =
        .ok .null
    ∧ (process_listing_data
        (.obj [("images",
          .arr [.obj [("url", .str "https://img.example/1.jpg")],
                .obj []])])).map (fun r => r.first_image_url) =
        .ok (.str "https://img.example/1.jpg") := by
  exact ⟨rfl, rfl, rfl⟩

/-- C3 counterexample: the scripts' bounding-box generation for the Istanbul
box with a 4x4 grid yields 19 cells, not 16, and no cell is labeled
Area_4_2 — cell (4,2) is replaced by its hard-coded 2x2 subdivision. -/
theorem bounding_boxes_not_sixteen :
    bounding_boxes.length = 19 ∧ bounding_boxes.length ≠ 16
    ∧ "Area_4_2" ∉ bounding_boxes.map Box.name := by
  refine ⟨rfl, by decide, by decide⟩

/-- C3 amended: the generation yields 19 cells — the 15 grid cells other
than (4,2), each 0.0025 by 0.0025 degrees, labeled by their grid position,
plus the four 2x2 subdivision cells of Area_4_2, each 0.00125 by 0.00125
degrees — in this order. -/
theorem bounding_boxes_spec :
    bounding_boxes.map Box.name =
      ["Area_1_1", "Area_1_2", "Area_1_3", "Area_1_4",
       "Area_2_1", "Area_2_2", "Area_2_3", "Area_2_4",
       "Area_3_1", "Area_3_2", "Area_3_3", "Area_3_4",
       "Area_4_1",
       "Area_4_2_Sub_1_1", "Area_4_2_Sub_1_2",
       "Area_4_2_Sub_2_1", "Area_4_2_Sub_2_2",
       "Area_4_3", "Area_4_4"]
    ∧ (bounding_boxes.map fun bx => bx.ne_lat - bx.sw_lat) =
      [1/400, 1/400, 1/400, 1/400, 1/400, 1/400, 1/400, 1/400,
       1/400, 1/400, 1/400, 1/400, 1/400,
       1/800, 1/800, 1/800, 1/800,
       1/400, 1/400]
    ∧ (bounding_boxes.map fun bx => bx.ne_long - bx.sw_long) =
      [1/400, 1/400, 1/400, 1/400, 1/400, 1/400, 1/400, 1/400,
       1/400, 1/400, 1/400, 1/400, 1/400,
       1/800, 1/800, 1/800, 1/800,
       1/400, 1/400] := by
  have h4 : List.range 4 = [0, 1, 2, 3] := rfl
  have h2 : List.range 2 = [0, 1] := rfl
  refine ⟨by decide, ?_, ?_⟩ <;>
  · simp only [bounding_boxes, h4, h2, List.flatMap_cons, List.flatMap_nil,
      List.map_cons, List.map_nil, List.append_nil, List.cons_append,
      List.nil_append, List.append_assoc]
    norm_num

/-- C5: the de-duplication dict is last-write-wins — looking up a key right
after inserting under it returns the inserted record — and merging the
scenario's three records with identifiers 1, 2, 1 leaves two entries, with
identifier 1 holding the third record's values. -/
theorem merge_last_write_wins :
    (∀ (d : List (JValue × JValue)) (k v : JValue),
      dictLookup (dictInsert d k v) k = some v)
    ∧ all_listings_merge [sampleRec1, sampleRec2, sampleRec3] [] =
        .ok [(.num 1, sampleRec3), (.num 2, sampleRec2)]
    ∧ (all_listings_merge [sampleRec1, sampleRec2, sampleRec3] []).map
        List.length = .ok 2
    ∧ (all_listings_merge [sampleRec1, sampleRec2, sampleRec3] []).map
        (fun d => dictLookup d (.num 1)) = .ok (some sampleRec3) := by
  refine ⟨?_, rfl, rfl, rfl⟩
  intro d k v
  induction d with
  | nil => simp [dictInsert, dictLookup]
  | cons p rest ih =>
    obtain ⟨k', v'⟩ := p
    by_cases h : k' = k
    · simp [dictInsert, dictLookup, h]
    · simp [dictInsert, dictLookup, h, ih]

/-- C6 counterexample: the partition operation performs no InvalidPartition
validation — a zero-area box partitions without error, and a negative row
count silently yields the empty cell list. -/
theorem partition_no_validation_counterexample :
    (partition 41.03 28.97 41.03 28.98 4 4).isOk = true
    ∧ partition 41.03 28.97 41.04 28.98 (-1) 4 = .ok [] := ⟨rfl, rfl⟩

/-- C6 amended: degenerate input is not validated: a zero row or column
count raises ZeroDivisionError from the step computation, a negative count
silently yields the empty cell list, and a zero-area box silently yields
rows*cols zero-area cells; the operation is a pure function of its inputs
throughout. -/
theorem partition_degenerate_behavior :
    (∀ (a b c d : ℚ) (rows cols : ℤ), rows = 0 ∨ cols = 0 →
      partition a b c d rows cols = .error .zeroDivisionError)
    ∧ (∀ (a b c d : ℚ) (rows cols : ℤ), rows < 0 → ¬ cols = 0 →
      partition a b c d rows cols = .ok [])
    ∧ (∀ (a b d : ℚ) (rows cols : ℤ), 0 < rows → 0 < cols →
      ∃ cs, partition a b a d rows cols = .ok cs ∧
        cs.length = rows.toNat * cols.toNat ∧ ∀ bx ∈ cs, boxArea bx = 0) := by
  refine ⟨?_, ?_, ?_⟩
  · intro a b c d rows cols h
    simp [partition, h]
  · intro a b c d rows cols hr hc
    have h0 : ¬ rows = 0 := by omega
    have ht : rows.toNat = 0 := by omega
    simp [partition, h0, hc, gridCells, ht]
  · intro a b d rows cols hr hc
    refine ⟨gridCells a b a d rows cols, ?_, ?_, ?_⟩
    · have h0 : ¬ rows = 0 := by omega
      have hc0 : ¬ cols = 0 := by omega
      simp [partition, h0, hc0]
    · simp only [gridCells, List.length_flatMap, Function.comp_def,
        List.length_map, List.length_range, List.map_const',
        List.sum_replicate, smul_eq_mul]
    · intro bx hbx
      simp [gridCells, List.mem_flatMap, List.mem_map] at hbx
      obtain ⟨i, _, j, _, rfl⟩ := hbx
      simp [gridCell, boxArea]

/-- Witness for the amended C6 theorem at concrete inputs. -/
theorem partition_degenerate_behavior_witness :
    partition 1 2 3 4 0 5 = .error .zeroDivisionError
    ∧ partition 1 2 3 4 (-2) 5 = .ok []
    ∧ ∃ cs, partition 1 2 1 4 3 2 = .ok cs ∧
        cs.length = (3 : ℤ).toNat * (2 : ℤ).toNat ∧ ∀ bx ∈ cs, boxArea bx = 0 :=
  ⟨partition_degenerate_behavior.1 1 2 3 4 0 5 (Or.inl rfl),
   partition_degenerate_behavior.2.1 1 2 3 4 (-2) 5 (by decide) (by decide),
   partition_degenerate_behavior.2.2 1 2 4 3 2 (by decide) (by decide)⟩

/-- C9: merging a record that lacks the room_id key raises KeyError, since
the insertion indexes by subscript unconditionally, while the flattener
tolerates a record with no identifier (the empty mapping flattens
successfully). -/
theorem merge_requires_room_id :
    (∀ (kvs : List (String × JValue)) (rest : List JValue)
       (d : List (JValue × JValue)),
      lookupKV kvs "room_id" = none →
      all_listings_merge (.obj kvs :: rest) d = .error .keyError)
    ∧ (process_listing_data (.obj [])).isOk = true := by
  constructor
  · intro kvs rest d h
    simp [all_listings_merge, pySubscript, h]
  · rfl

/-- Witness for the C9 theorem at a concrete record without room_id. -/
theorem merge_requires_room_id_witness :
    lookupKV [("title", .str "x")] "room_id" = none
    ∧ all_listings_merge [.obj [("title", .str "x")]] [] = .error .keyError :=
  ⟨by decide, merge_requires_room_id.1 _ [] [] (by decide)⟩

/-- C10: the de-duplication dict invariant — every key equals the room_id
field of the record stored under it — is preserved by inserting any record
carrying a room_id, and under the invariant the downstream URL generation,
which subscripts room_id on every stored value, never raises. -/
theorem keyedById_invariant :
    (∀ (d : List (JValue × JValue)) (kvs : List (String × JValue))
       (idv : JValue),
      keyedById d = true → lookupKV kvs "room_id" = some idv →
      keyedById (dictInsert d idv (.obj kvs)) = true)
    ∧ (∀ d : List (JValue × JValue), keyedById d = true →
      (listingUrls (d.map Prod.snd)).isOk = true) := by
  constructor
  · intro d kvs idv hd hk
    induction d with
    | nil => simp [dictInsert, keyedById, hk]
    | cons p rest ih =>
      obtain ⟨k, v⟩ := p
      simp only [keyedById, List.all_cons, Bool.and_eq_true] at hd
      obtain ⟨hp, hrest⟩ := hd
      by_cases h : k = idv
      · subst h
        simp [dictInsert, keyedById, hk, hrest]
      · simp only [dictInsert, if_neg h, keyedById, List.all_cons,
          Bool.and_eq_true]
        exact ⟨hp, by simpa [keyedById] using ih hrest⟩
  · intro d hd
    induction d with
    | nil => rfl
    | cons p rest ih =>
      obtain ⟨k, v⟩ := p
      simp only [keyedById, List.all_cons, Bool.and_eq_true] at hd
      obtain ⟨hp, hrest⟩ := hd
      cases v with
      | obj kvs =>
        have hk : lookupKV kvs "room_id" = some k := by
          simpa using hp
        have ihok := ih hrest
        cases hres : listingUrls (List.map Prod.snd rest) with
        | ok urls =>
          simp [listingUrls, pySubscript, hk, hres, Except.isOk,
            Except.toBool]
        | error e =>
          rw [hres] at ihok
          simp [Except.isOk, Except.toBool] at ihok
      | null => simp at hp
      | bool b => simp at hp
      | num q => simp at hp
      | str s => simp at hp
      | arr xs => simp at hp

/-- Witness for the C10 theorem at a concrete dict and record. -/
theorem keyedById_invariant_witness :
    keyedById [(.num 2, .obj [("room_id", .num 2)])] = true
    ∧ lookupKV [("room_id", .num 7)] "room_id" = some (.num 7)
    ∧ keyedById (dictInsert [(.num 2, .obj [("room_id", .num 2)])] (.num 7)
        (.obj [("room_id", .num 7)])) = true
    ∧ (listingUrls ([((.num 2 : JValue), (.obj [("room_id", .num 2)] : JValue))].map Prod.snd)).isOk
        = true :=
  ⟨by decide, by decide,
   keyedById_invariant.1 _ _ _ (by decide) (by decide),
   keyedById_invariant.2 _ (by decide)⟩

/-- Every grid cell has area latStep times longStep. -/
theorem boxArea_gridCell (a b c d : ℚ) (rows cols : ℤ) (i j : ℕ) :
    boxArea (gridCell a b c d rows cols i j) =
      ((c - a) / (rows : ℚ)) * ((d - b) / (cols : ℚ)) := by
  simp only [boxArea, gridCell]
  ring

/-- The areas of the first R rows of cells sum to R * C * cellArea. -/
theorem sum_areas_rows (a b c d : ℚ) (rows cols : ℤ) :
    ∀ R C : ℕ,
      ((((List.range R).flatMap fun (i : ℕ) =>
        (List.range C).map fun (j : ℕ) =>
          gridCell a b c d rows cols i j).map boxArea).sum) =
      (R : ℚ) * (C : ℚ) * (((c - a) / (rows : ℚ)) * ((d - b) / (cols : ℚ))) := by
  intro R C
  induction R with
  | zero => simp
  | succ n ih =>
    rw [List.range_succ]
    simp only [List.flatMap_append, List.flatMap_cons, List.flatMap_nil,
      List.append_nil, List.map_append, List.sum_append, ih]
    have hrow : (((List.range C).map fun (j : ℕ) =>
        gridCell a b c d rows cols n j).map boxArea).sum =
        (C : ℚ) * (((c - a) / (rows : ℚ)) * ((d - b) / (cols : ℚ))) := by
      simp only [List.map_map, Function.comp_def, boxArea_gridCell,
        List.map_const', List.sum_replicate, List.length_range, nsmul_eq_mul]
    rw [hrow]
    push_cast
    ring

/-- Cells from distinct rows have disjoint interiors: their latitude
intervals do not overlap. -/
theorem no_overlap_lat (a b c d : ℚ) (rows cols : ℤ)
    (hlat : a < c) (hr : 0 < rows) {i i' j j' : ℕ} (hii : i < i') :
    ¬ boxOverlap (gridCell a b c d rows cols i j)
      (gridCell a b c d rows cols i' j') := by
  rintro ⟨la, lo, h1, h2, h3, h4, h5, h6, h7, h8⟩
  simp only [gridCell] at h2 h5
  have hrq : (0 : ℚ) < (rows : ℚ) := by exact_mod_cast hr
  have hs : 0 < (c - a) / (rows : ℚ) := div_pos (by linarith) hrq
  have hle : ((i : ℚ) + 1) ≤ (i' : ℚ) := by exact_mod_cast hii
  have := mul_le_mul_of_nonneg_right hle hs.le
  linarith

/-- Cells from distinct columns have disjoint interiors: their longitude
intervals do not overlap. -/
theorem no_overlap_long (a b c d : ℚ) (rows cols : ℤ)
    (hlong : b < d) (hc : 0 < cols) {i i' j j' : ℕ} (hjj : j < j') :
    ¬ boxOverlap (gridCell a b c d rows cols i j)
      (gridCell a b c d rows cols i' j') := by
  rintro ⟨la, lo, h1, h2, h3, h4, h5, h6, h7, h8⟩
  simp only [gridCell] at h4 h7
  have hcq : (0 : ℚ) < (cols : ℚ) := by exact_mod_cast hc
  have ht : 0 < (d - b) / (cols : ℚ) := div_pos (by linarith) hcq
  have hle : ((j : ℚ) + 1) ≤ (j' : ℚ) := by exact_mod_cast hjj
  have := mul_le_mul_of_nonneg_right hle ht.le
  linarith

/-- C4: for every non-degenerate box and positive subdivision factors, the
produced cells tile the box exactly — their areas sum to the area of the box
and no two distinct cells' interiors overlap. -/
theorem grid_partition_tiles (a b c d : ℚ) (rows cols : ℤ) (cs : List Box)
    (hlat : a < c) (hlong : b < d) (hr : 0 < rows) (hc : 0 < cols)
    (hok : partition a b c d rows cols = .ok cs) :
    (cs.map boxArea).sum = (c - a) * (d - b)
    ∧ cs.Pairwise fun u v => ¬ boxOverlap u v := by
  have hcond : ¬ (rows = 0 ∨ cols = 0) := by omega
  rw [partition, if_neg hcond] at hok
  obtain rfl : gridCells a b c d rows cols = cs := by
    exact Except.ok.inj hok
  constructor
  · rw [gridCells, sum_areas_rows]
    have hRq : ((rows.toNat : ℚ)) = (rows : ℚ) := by
      exact_mod_cast congrArg (fun z : ℤ => (z : ℚ)) (Int.toNat_of_nonneg hr.le)
    have hCq : ((cols.toNat : ℚ)) = (cols : ℚ) := by
      exact_mod_cast congrArg (fun z : ℤ => (z : ℚ)) (Int.toNat_of_nonneg hc.le)
    rw [hRq, hCq]
    have h1 : (rows : ℚ) ≠ 0 := by positivity
    have h2 : (cols : ℚ) ≠ 0 := by positivity
    field_simp
  · rw [gridCells, List.pairwise_flatMap]
    constructor
    · intro i _
      rw [List.pairwise_map]
      exact (List.pairwise_lt_range _).imp
        (fun hjj => no_overlap_long a b c d rows cols hlong hc hjj)
    · refine (List.pairwise_lt_range _).imp ?_
      intro i i' hii u hu v hv
      simp only [List.mem_map, List.mem_range] at hu hv
      obtain ⟨j, _, rfl⟩ := hu
      obtain ⟨j', _, rfl⟩ := hv
      exact no_overlap_lat a b c d rows cols hlat hr hii

/-- Witness for the C4 theorem at a concrete box and factors. -/
theorem grid_partition_tiles_witness :
    ((0 : ℚ) < 1) ∧ ((0 : ℤ) < 2) ∧ ((0 : ℤ) < 3)
    ∧ partition 0 0 1 1 2 3 = .ok (gridCells 0 0 1 1 2 3)
    ∧ (((gridCells 0 0 1 1 2 3).map boxArea).sum = (1 - 0) * (1 - 0)
       ∧ (gridCells 0 0 1 1 2 3).Pairwise fun u v => ¬ boxOverlap u v) :=
  ⟨by norm_num, by decide, by decide, rfl,
   grid_partition_tiles 0 0 1 1 2 3 _ (by norm_num) (by norm_num)
     (by decide) (by decide) rfl⟩

/-- A good breakdown entry responds to the description lookup with the
string that entryDescr extracts. -/
theorem entry_get : ∀ it : JValue, goodEntry it = true →
    pyGet it "description" (.str "") = .ok (.str (entryDescr it)) := by
  intro it hg
  cases it with
  | obj kvs =>
    rcases hl : lookupKV kvs "description" with _ | v
    · simp [pyGet, entryDescr, hl]
    · cases v <;> simp_all [goodEntry, pyGet, entryDescr]
  | null => exact absurd hg (by simp [goodEntry])
  | bool b => exact absurd hg (by simp [goodEntry])
  | num q => exact absurd hg (by simp [goodEntry])
  | str s => exact absurd hg (by simp [goodEntry])
  | arr xs => exact absurd hg (by simp [goodEntry])

/-- The breakdown comprehension succeeds on good entries, returning their
description strings. -/
theorem mapDescr_good : ∀ xs : List JValue, xs.all goodEntry = true →
    mapDescr xs = .ok (xs.map fun it => .str (entryDescr it)) := by
  intro xs h
  induction xs with
  | nil => rfl
  | cons it rest ih =>
    simp only [List.all_cons, Bool.and_eq_true] at h
    obtain ⟨hg, hrest⟩ := h
    simp [mapDescr, entry_get it hg, ih hrest]

/-- The join's element check succeeds on a list of Python strings. -/
theorem pyStrList_strs (f : JValue → String) :
    ∀ xs : List JValue, pyStrList (xs.map fun it => .str (f it)) =
      .ok (xs.map f) := by
  intro xs
  induction xs with
  | nil => rfl
  | cons it rest ih => simp [pyStrList, ih]

/-- Joining a list of Python strings intercalates them. -/
theorem pyJoin_strs (sep : String) (f : JValue → String) (xs : List JValue) :
    pyJoin sep (xs.map fun it => .str (f it)) =
      .ok (String.intercalate sep (xs.map f)) := by
  simp [pyJoin, pyStrList_strs]

/-- Cons-shaped variant of the join computation. -/
theorem pyJoin_strs_cons (sep : String) (f : JValue → String) (y : JValue)
    (ys : List JValue) :
    pyJoin sep (.str (f y) :: ys.map fun it => .str (f it)) =
      .ok (String.intercalate sep (f y :: ys.map f)) := by
  have h := pyJoin_strs sep f (y :: ys)
  simpa using h

/-- A successful description lookup determines entryDescr. -/
theorem entry_get_inv : ∀ (it : JValue) (s : String),
    pyGet it "description" (.str "") = .ok (.str s) → entryDescr it = s := by
  intro it s h
  cases it <;> simp [pyGet] at h
  case obj kvs =>
    rcases hl : lookupKV kvs "description" with _ | v
    · simp [hl] at h
      simp [entryDescr, hl, ← h]
    · simp [hl] at h
      subst h
      simp [entryDescr, hl]

/-- The strings accepted by the join out of a successful breakdown
comprehension are exactly the entries' extracted descriptions. -/
theorem mapDescr_join : ∀ (xs ds : List JValue) (ss : List String),
    mapDescr xs = .ok ds → pyStrList ds = .ok ss →
    ss = xs.map entryDescr := by
  intro xs
  induction xs with
  | nil =>
    intro ds ss h1 h2
    simp only [mapDescr] at h1
    obtain rfl : ([] : List JValue) = ds := Except.ok.inj h1
    simp only [pyStrList] at h2
    obtain rfl : ([] : List String) = ss := Except.ok.inj h2
    simp
  | cons it rest ih =>
    intro ds ss h1 h2
    simp only [mapDescr] at h1
    obtain ⟨d, hd, h1⟩ := pyBindOk h1
    obtain ⟨r, hr, h1⟩ := pyBindOk h1
    obtain rfl : d :: r = ds := Except.ok.inj h1
    cases d with
    | str s =>
      simp only [pyStrList] at h2
      obtain ⟨ss1, hss, h2⟩ := pyBindOk h2
      obtain rfl : s :: ss1 = ss := Except.ok.inj h2
      have hs : entryDescr it = s := entry_get_inv it s hd
      simp [ih r ss1 hr hss, hs]
    | null => simp [pyStrList] at h2
    | bool b => simp [pyStrList] at h2
    | num q => simp [pyStrList] at h2
    | arr a => simp [pyStrList] at h2
    | obj o => simp [pyStrList] at h2

/-- Extraction of the shape facts packed into `wellShaped`. -/
theorem wellShaped_spec (kvs : List (String × JValue))
    (h : wellShaped kvs = true) :
    (∃ pkvs, (lookupKV kvs "price").getD (.obj []) = .obj pkvs
      ∧ (∃ ukvs, (lookupKV pkvs "unit").getD (.obj []) = .obj ukvs)
      ∧ ((lookupKV pkvs "break_down").getD .null = .null
         ∨ ∃ xs, (lookupKV pkvs "break_down").getD .null = .arr xs
             ∧ (lookupKV pkvs "break_down").getD (.arr []) = .arr xs
             ∧ xs.all goodEntry = true))
    ∧ (∃ rkvs, (lookupKV kvs "rating").getD (.obj []) = .obj rkvs)
    ∧ (∃ ckvs, (lookupKV kvs "coordinates").getD (.obj []) = .obj ckvs)
    ∧ (∃ bxs, (lookupKV kvs "badges").getD (.arr []) = .arr bxs)
    ∧ (∃ ikvs irest,
        (lookupKV kvs "images").getD (.arr [.obj []]) =
          .arr (.obj ikvs :: irest)) := by
  unfold wellShaped at h
  simp only [Bool.and_eq_true] at h
  obtain ⟨⟨⟨⟨hprice, hrating⟩, hcoords⟩, hbadges⟩, himage⟩ := h
  refine ⟨?_, ?_, ?_, ?_, ?_⟩
  · rcases hp : lookupKV kvs "price" with _ | (_ | b | q | s | axs | pkvs) <;>
      first
      | (rw [hp] at hprice; simp at hprice; done)
      | skip
    · exact ⟨[], rfl, ⟨[], rfl⟩, Or.inl rfl⟩
    · rw [hp] at hprice
      obtain ⟨hunit, hbd⟩ := Bool.and_eq_true_iff.mp hprice
      refine ⟨pkvs, rfl, ?_, ?_⟩
      · rcases hu : lookupKV pkvs "unit" with
          _ | (_ | b | q | s | axs | ukvs) <;>
          first
          | (rw [hu] at hunit; simp at hunit; done)
          | skip
        · exact ⟨[], rfl⟩
        · exact ⟨ukvs, rfl⟩
      · rcases hb : lookupKV pkvs "break_down" with
          _ | (_ | b | q | s | xs | okvs) <;>
          first
          | (rw [hb] at hbd; simp at hbd; done)
          | skip
        · exact Or.inl rfl
        · rw [hb] at hbd
          exact Or.inr ⟨xs, rfl, rfl, by simpa using hbd⟩
  · rcases hr : lookupKV kvs "rating" with _ | (_ | b | q | s | axs | rkvs) <;>
      first
      | (rw [hr] at hrating; simp at hrating; done)
      | skip
    · exact ⟨[], rfl⟩
    · exact ⟨rkvs, rfl⟩
  · rcases hc : lookupKV kvs "coordinates" with
      _ | (_ | b | q | s | axs | ckvs) <;>
      first
      | (rw [hc] at hcoords; simp at hcoords; done)
      | skip
    · exact ⟨[], rfl⟩
    · exact ⟨ckvs, rfl⟩
  · rcases hbg : lookupKV kvs "badges" with
      _ | (_ | b | q | s | bxs | okvs) <;>
      first
      | (rw [hbg] at hbadges; simp at hbadges; done)
      | skip
    · exact ⟨[], rfl⟩
    · exact ⟨bxs, rfl⟩
  · rcases hi : lookupKV kvs "images" with
      _ | (_ | b | q | s | ixs | okvs) <;>
      first
      | (rw [hi] at himage; simp at himage; done)
      | skip
    · exact ⟨[], [], rfl⟩
    · rw [hi] at himage
      rcases ixs with _ | ⟨(_ | b2 | q2 | s2 | a2 | ikvs), tl⟩ <;>
        first
        | (simp at himage; done)
        | skip
      exact ⟨ikvs, tl, rfl⟩

/-- C1 amended: the flattener returns a full fixed-schema row and never
raises on every mapping whose present fields are well-shaped (`price`,
`rating`, `coordinates` and `price.unit` mappings, `badges` a sequence,
`price.break_down` a sequence of mappings with string descriptions, and
`images` a non-empty sequence of mappings when present); a record that is
not a mapping at all fails with AttributeError, the code's InvalidRecord
analog. Present-but-empty `images` or oddly-shaped fields raise instead
(see the counterexample). -/
theorem flatten_total_on_wellShaped :
    (∀ kvs, wellShaped kvs = true →
      (process_listing_data (.obj kvs)).isOk = true)
    ∧ (∀ v : JValue, isObj v = false →
      process_listing_data v = .error .attributeError) := by
  constructor
  · intro kvs h
    obtain ⟨⟨pkvs, hpi, ⟨ukvs, hu⟩, hbd⟩, ⟨rkvs, hr⟩, ⟨ckvs, hc⟩,
        ⟨bxs, hb⟩, ⟨ikvs, irest, hi⟩⟩ := wellShaped_spec kvs h
    rcases hbd with hbd | ⟨xs, hbd1, hbd2, hgood⟩
    · simp [process_listing_data, breakdownSummary, pyGet, hpi, hu, hbd, hr,
        hc, hb, hi, pyTruthy, pyIterList, pyIndexZero, pyMem, Except.isOk,
        Except.toBool]
    · cases xs with
      | nil =>
        simp [process_listing_data, breakdownSummary, pyGet, hpi, hu, hbd1,
          hbd2, hr, hc, hb, hi, pyTruthy, pyIterList, pyIndexZero, pyMem,
          Except.isOk, Except.toBool]
      | cons y ys =>
        simp [process_listing_data, breakdownSummary, pyGet, hpi, hu, hbd1,
          hbd2, hr, hc, hb, hi, pyTruthy, pyIterList, pyIndexZero, pyMem,
          mapDescr_good _ hgood, pyJoin_strs, pyJoin_strs_cons,
          Except.isOk, Except.toBool]
  · intro v hv
    cases v with
    | obj kvs => simp [isObj] at hv
    | null => rfl
    | bool b => rfl
    | num q => rfl
    | str s => rfl
    | arr xs => rfl

/-- A successful safe lookup forces the receiver to be a mapping. -/
theorem pyGet_ok_obj {v : JValue} {k : String} {d w : JValue}
    (h : pyGet v k d = .ok w) :
    ∃ kvs', v = .obj kvs' ∧ (lookupKV kvs' k).getD d = w := by
  cases v <;> simp [pyGet] at h
  case obj kvs => exact ⟨kvs, rfl, h⟩

/-- A None-defaulted lookup that produced a sequence found that sequence. -/
theorem getD_null_eq_arr {o : Option JValue} {xs : List JValue}
    (h : o.getD .null = .arr xs) : o = some (.arr xs) := by
  cases o <;> simp_all

/-- What a successful breakdown-summary computation returned: the empty
string when break_down resolves to None, and the joined descriptions when
it resolves to a sequence. -/
theorem breakdownSummary_inv (pkvs : List (String × JValue)) (s : String)
    (h : breakdownSummary (.obj pkvs) = .ok s) :
    ((lookupKV pkvs "break_down").getD .null = .null → s = "")
    ∧ (∀ xs, (lookupKV pkvs "break_down").getD .null = .arr xs →
        s = String.intercalate " | " (xs.map entryDescr)) := by
  simp only [breakdownSummary, pyGet, pyOkBind] at h
  constructor
  · intro hnull
    rw [hnull] at h
    simp only [pyTruthy, Bool.false_eq_true, if_false] at h
    exact (Except.ok.inj h).symm
  · intro xs hxs
    rw [hxs] at h
    cases xs with
    | nil =>
      simp only [pyTruthy, List.isEmpty_nil, Bool.not_true,
        Bool.false_eq_true, if_false] at h
      exact (Except.ok.inj h).symm
    | cons y ys =>
      have hlk : lookupKV pkvs "break_down" = some (.arr (y :: ys)) :=
        getD_null_eq_arr hxs
      simp only [pyTruthy, List.isEmpty_cons, Bool.not_false, if_true,
        hlk, Option.getD_some, pyIterList, pyOkBind] at h
      obtain ⟨ds, hds, h⟩ := pyBindOk h
      simp only [pyJoin] at h
      obtain ⟨ss, hss, h⟩ := pyBindOk h
      rw [mapDescr_join (y :: ys) ds ss hds hss] at h
      exact (Except.ok.inj h).symm

/-- Characterization of a successful flattening: the listing_url column
follows the identifier truthiness rule and the summary column follows the
breakdown join rule. -/
theorem processOk_spec (kvs : List (String × JValue)) (row : FlatRow)
    (h : process_listing_data (.obj kvs) = .ok row) :
    row.listing_url =
      (if pyTruthy (roomIdVal kvs) then
        "https://www.airbnb.com/rooms/" ++ pyStr (roomIdVal kvs)
      else "N/A")
    ∧ (breakDownVal kvs = .null → row.price_breakdown_summary = "")
    ∧ (∀ xs, breakDownVal kvs = .arr xs →
        row.price_breakdown_summary =
          String.intercalate " | " (xs.map entryDescr)) := by
  simp only [process_listing_data, pyGet, pyOkBind] at h
  obtain ⟨pu, hpu, h⟩ := pyBindOk h
  obtain ⟨pbd, hpbd, h⟩ := pyBindOk h
  obtain ⟨rv, hrv, h⟩ := pyBindOk h
  obtain ⟨rc, hrc, h⟩ := pyBindOk h
  obtain ⟨sh, hsh, h⟩ := pyBindOk h
  obtain ⟨gf, hgf, h⟩ := pyBindOk h
  obtain ⟨lat, hlat, h⟩ := pyBindOk h
  obtain ⟨lng, hlng, h⟩ := pyBindOk h
  obtain ⟨q1, hq1, h⟩ := pyBindOk h
  obtain ⟨q2, hq2, h⟩ := pyBindOk h
  obtain ⟨q3, hq3, h⟩ := pyBindOk h
  obtain ⟨q4, hq4, h⟩ := pyBindOk h
  obtain ⟨fi, hfi, h⟩ := pyBindOk h
  obtain ⟨fiu, hfiu, h⟩ := pyBindOk h
  obtain rfl := (Except.ok.inj h).symm
  obtain ⟨pkvs, hP, hpu2⟩ := pyGet_ok_obj hpu
  rw [hP] at hpbd
  have hbv : breakDownVal kvs =
      (lookupKV pkvs "break_down").getD .null := by
    simp only [breakDownVal, hP]
  obtain ⟨hnull, harr⟩ := breakdownSummary_inv pkvs pbd hpbd
  refine ⟨rfl, ?_, ?_⟩
  · intro hn
    rw [hbv] at hn
    exact hnull hn
  · intro xs hxs
    rw [hbv] at hxs
    exact harr xs hxs

/-- C1 counterexample: the flattener does raise on some mapping inputs — a
present but oddly-shaped price field raises AttributeError, and a present
but empty image sequence raises IndexError. -/
theorem flatten_not_total_counterexample :
    process_listing_data (.obj [("price", .num 5)]) = .error .attributeError
    ∧ process_listing_data (.obj [("images", .arr [])]) =
        .error .indexError := ⟨rfl, rfl⟩

/-- Witness for the amended C1 theorem at concrete records. -/
theorem flatten_total_on_wellShaped_witness :
    wellShaped wellShapedSample = true
    ∧ (process_listing_data (.obj wellShapedSample)).isOk = true
    ∧ isObj .null = false
    ∧ process_listing_data .null = .error .attributeError :=
  ⟨by decide, flatten_total_on_wellShaped.1 wellShapedSample (by decide),
   rfl, flatten_total_on_wellShaped.2 .null rfl⟩

/-- C7 amended: in every successfully flattened row, listing_url equals the
base URL followed by /rooms/ and the rendered identifier whenever the
identifier value is truthy, and the sentinel N/A whenever the identifier is
absent or falsy (None, zero, empty). -/
theorem listing_url_truthy_spec (kvs : List (String × JValue))
    (row : FlatRow) (h : process_listing_data (.obj kvs) = .ok row) :
    row.listing_url =
      (if pyTruthy (roomIdVal kvs) then
        "https://www.airbnb.com/rooms/" ++ pyStr (roomIdVal kvs)
      else "N/A") :=
  (processOk_spec kvs row h).1

/-- C7 counterexample: a record whose identifier is present but equals 0
flattens to listing_url N/A, not to the /rooms/0 URL the claim requires for
every present identifier. -/
theorem listing_url_present_zero_counterexample :
    lookupKV [("room_id", .num 0)] "room_id" = some (.num 0)
    ∧ (process_listing_data (.obj [("room_id", .num 0)])).map
        (fun r => r.listing_url) = .ok "N/A"
    ∧ pyStr (.num 0) = "0"
    ∧ ("N/A" : String) ≠ "https://www.airbnb.com/rooms/0" := by
  refine ⟨rfl, rfl, rfl, by decide⟩

/-- Witness for the amended C7 theorem at a concrete record. -/
theorem listing_url_truthy_spec_witness :
    process_listing_data (.obj c7Sample) = .ok c7SampleRow
    ∧ c7SampleRow.listing_url =
        (if pyTruthy (roomIdVal c7Sample) then
          "https://www.airbnb.com/rooms/" ++ pyStr (roomIdVal c7Sample)
        else "N/A") :=
  ⟨rfl, listing_url_truthy_spec c7Sample c7SampleRow rfl⟩

/-- C8: in every successfully flattened row, price_breakdown_summary equals
the description fields of the break-down entries (missing descriptions
contributing the empty string) joined with the fixed separator, and equals
the empty string when the break-down sequence is missing; an empty sequence
yields the empty join. -/
theorem price_breakdown_summary_spec (kvs : List (String × JValue))
    (row : FlatRow) (h : process_listing_data (.obj kvs) = .ok row) :
    (breakDownVal kvs = .null → row.price_breakdown_summary = "")
    ∧ (∀ xs, breakDownVal kvs = .arr xs →
        row.price_breakdown_summary =
          String.intercalate " | " (xs.map entryDescr)) :=
  (processOk_spec kvs row h).2

/-- Witness for the C8 theorem at a concrete record with two described
entries and one undescribed entry. -/
theorem price_breakdown_summary_spec_witness :
    process_listing_data (.obj c8Sample) = .ok c8SampleRow
    ∧ breakDownVal c8Sample = .arr c8Entries
    ∧ c8SampleRow.price_breakdown_summary =
        String.intercalate " | " (c8Entries.map entryDescr) :=
  ⟨rfl, rfl,
   (price_breakdown_summary_spec c8Sample c8SampleRow rfl).2 c8Entries rfl⟩

end ClaimTheorems
